import Mathlib

/-!
Shallow embedding of the Stripe billing reconciliation core of the Proxyllm
repository, and proofs of the specification claims about it.

Source files embedded:
- src/litellm/integrations/stripe.py (StripeLogger: validate_environment,
  _common_logic, _send_meter_event, _deduct_from_prepaid_balance,
  _async_deduct_from_balance, log_success_event, async_log_success_event)
- src/litellm/proxy/management_endpoints/stripe_balance_endpoints.py
  (get_or_create_balance_record, record_transaction, stripe_webhook)

Conventions: Python floats (money amounts) are modelled as rationals (ℚ);
environment variables and request metadata fields are `Option String`
(`none` = unset / absent key); exceptions are `Except` errors; the database
is an explicit `LedgerState` value threaded through the operations.
Timestamps, uuid idempotency keys, HTTP transport and logging are abstracted
away: an HTTP post outcome appears as a boolean input to the dispatcher.
-/

deriving instance DecidableEq for Except

/-- Lower-case a string character-wise (models Python's `str.lower()`). -/
def lowerStr (s : String) : String := String.mk (s.data.map Char.toLower)

/-- `listStartsWith pat l` : `pat` is an initial segment of `l`. -/
def listStartsWith : List Char → List Char → Bool
  | [], _ => true
  | _ :: _, [] => false
  | a :: as, b :: bs => a == b && listStartsWith as bs

/-- `subListAt pat l` : `pat` occurs contiguously somewhere in `l`. -/
def subListAt (pat : List Char) : List Char → Bool
  | [] => listStartsWith pat []
  | b :: bs => listStartsWith pat (b :: bs) || subListAt pat bs

/-- Models Python's substring test `pat in s`. -/
def strContains (s pat : String) : Bool := subListAt pat.data s.data

/-- Python truthiness of an optional string: `None` and `""` are falsy. -/
def pyTruthyStr : Option String → Bool
  | none => false
  | some s => !(s == "")

/-! ## Customer resolution (stripe.py)

The attribution fields available on a completed request. In the source these
are read out of `kwargs["litellm_params"]`:
`proxy_server_request.body.user`, `metadata.user_api_key_user_id`,
`metadata.user_api_key_team_id`. -/

structure RequestIds where
  end_user_id : Option String
  user_id : Option String
  team_id : Option String
deriving DecidableEq

/-- The two kinds of exception raised by the resolution blocks:
`configError` models `Exception("invalid STRIPE_CHARGE_BY set")`,
`missingCustomer` models `Exception("Customer ID is not set...")`. -/
inductive ResolveError
  | configError
  | missingCustomer
deriving DecidableEq

/-- The membership test `os.environ["STRIPE_CHARGE_BY"] in
["end_user_id", "user_id", "team_id"]`. -/
def validChargeBy (s : String) : Bool :=
  s == "end_user_id" || s == "user_id" || s == "team_id"

/-- The `if charge_by == ... : customer_id = ...` chain shared by all
resolution blocks of stripe.py. -/
def pickCustomerId (charge_by : String) (ids : RequestIds) : Option String :=
  if charge_by == "end_user_id" then ids.end_user_id
  else if charge_by == "team_id" then ids.team_id
  else if charge_by == "user_id" then ids.user_id
  else none

/-- Customer resolution as done in `StripeLogger._common_logic`
(stripe.py lines 116-143): an invalid `STRIPE_CHARGE_BY` raises
("invalid STRIPE_CHARGE_BY set"); an unset one defaults to `end_user_id`;
a `None` selected field raises ("Customer ID is not set"). -/
def resolveCustomerCommon (chargeByEnv : Option String) (ids : RequestIds) :
    Except ResolveError (String × String) :=
  match chargeByEnv with
  | some cb =>
    if validChargeBy cb then
      match pickCustomerId cb ids with
      | some c => .ok (cb, c)
      | none => .error .missingCustomer
    else .error .configError
  | none =>
    match pickCustomerId "end_user_id" ids with
    | some c => .ok ("end_user_id", c)
    | none => .error .missingCustomer

/-- Customer resolution as done in `StripeLogger._send_meter_event`
(stripe.py lines 188-205): an invalid `STRIPE_CHARGE_BY` is silently
ignored (the default `end_user_id` is kept); a `None` selected field
raises ("Customer ID not set"). -/
def resolveCustomerMeter (chargeByEnv : Option String) (ids : RequestIds) :
    Except ResolveError (String × String) :=
  let charge_by :=
    match chargeByEnv with
    | some cb => if validChargeBy cb then cb else "end_user_id"
    | none => "end_user_id"
  match pickCustomerId charge_by ids with
  | some c => .ok (charge_by, c)
  | none => .error .missingCustomer

/-- Customer resolution as done in the prepaid paths
(`StripeLogger._deduct_from_prepaid_balance` lines 247-265 and
`async_log_success_event` lines 462-476): an invalid `STRIPE_CHARGE_BY` is
silently ignored, and a falsy customer id (`None` or `""`, Python
`if not customer_id` / `if customer_id`) skips the deduction (`none`)
rather than raising. -/
def resolveCustomerPrepaid (chargeByEnv : Option String) (ids : RequestIds) :
    Option (String × String) :=
  let charge_by :=
    match chargeByEnv with
    | some cb => if validChargeBy cb then cb else "end_user_id"
    | none => "end_user_id"
  match pickCustomerId charge_by ids with
  | some c => if c == "" then none else some (charge_by, c)
  | none => none

/-! ## Usage payload building (stripe.py) -/

/-- The usage object carried by an LLM response: each token count may be
absent (`response_obj["usage"].get(..., 0)` supplies the 0 default). -/
structure ResponseUsage where
  prompt_tokens : Option Nat
  completion_tokens : Option Nat
  total_tokens : Option Nat
deriving DecidableEq

/-- The `usage` dict built at stripe.py lines 100-108 / 172-180: populated
(with 0 defaults per key) only when the response carries usage data,
otherwise it stays the empty dict `{}` (modelled by `none`). -/
structure UsageDict where
  prompt_tokens : Nat
  completion_tokens : Nat
  total_tokens : Nat
deriving DecidableEq

def buildUsageDict : Option ResponseUsage → Option UsageDict
  | none => none
  | some u =>
    some ⟨u.prompt_tokens.getD 0, u.completion_tokens.getD 0, u.total_tokens.getD 0⟩

/-- The `quantity` field of `_common_logic`'s returned usage record
(stripe.py line 147): `usage.get("total_tokens", 1)` — the default 1
applies only when the `usage` dict is empty (no usage data on the
response); a present `total_tokens` key is used as-is, including 0. -/
def commonLogicQuantity (respUsage : Option ResponseUsage) : Nat :=
  match buildUsageDict respUsage with
  | none => 1
  | some u => u.total_tokens

/-- The numeric meter-event `value` of `_send_meter_event`
(stripe.py line 214): `usage.get("total_tokens", 1)`, same semantics as
`commonLogicQuantity`; the payload serializes it with `str(...)`. -/
def meterEventValue (respUsage : Option ResponseUsage) : Nat :=
  match buildUsageDict respUsage with
  | none => 1
  | some u => u.total_tokens

/-- The subscription usage-record payload built by
`StripeLogger._common_logic` (stripe.py lines 146-160); timestamp, the
random idempotency key and the purely informational metadata strings are
abstracted away. -/
structure UsageRecordPayload where
  quantity : Nat
  action : String
  customer_id : String
  charge_by : String
deriving DecidableEq

/-- Embeds `StripeLogger._common_logic` (stripe.py lines 93-165):
resolves the customer (raising on invalid policy or missing id) and
builds the usage-record payload. -/
def common_logic (chargeByEnv : Option String) (ids : RequestIds)
    (respUsage : Option ResponseUsage) : Except ResolveError UsageRecordPayload :=
  match resolveCustomerCommon chargeByEnv ids with
  | .error e => .error e
  | .ok (cb, cid) =>
    .ok { quantity := commonLogicQuantity respUsage, action := "increment",
          customer_id := cid, charge_by := cb }

/-- The meter-event payload built by `StripeLogger._send_meter_event`
(stripe.py lines 210-217); timestamp abstracted away. -/
structure MeterEvent where
  event_name : String
  stripe_customer_id : String
  value : String
deriving DecidableEq

/-- Embeds `StripeLogger._send_meter_event` (stripe.py lines 167-220):
resolves the customer (silently ignoring an invalid policy, raising on a
missing id) and builds the meter-event payload; the event name defaults
to "tokens" when `STRIPE_METER_EVENT_NAME` is unset. -/
def send_meter_event (chargeByEnv : Option String) (ids : RequestIds)
    (respUsage : Option ResponseUsage) (eventNameEnv : Option String) :
    Except ResolveError MeterEvent :=
  match resolveCustomerMeter chargeByEnv ids with
  | .error e => .error e
  | .ok (_, cid) =>
    .ok { event_name := eventNameEnv.getD "tokens",
          stripe_customer_id := cid,
          value := toString (meterEventValue respUsage) }

/-! ## Startup validation and billing-method selection (stripe.py) -/

/-- The environment variables read by `StripeLogger.validate_environment`. -/
structure StripeEnv where
  api_key : Option String
  price_id : Option String
  meter_event_name : Option String
  use_prepaid_balance : Option String
  billing_method : Option String
deriving DecidableEq

/-- The configuration stored on the logger by `validate_environment`:
`self.billing_method` and `self.use_prepaid`. -/
structure BillingConfig where
  billing_method : String
  use_prepaid : Bool
deriving DecidableEq

/-- Python's `"+".join(methods)`. -/
def joinPlus : List String → String
  | [] => ""
  | [m] => m
  | m :: ms => m ++ "+" ++ joinPlus ms

/-- The auto-detection branch of `validate_environment`
(stripe.py lines 72-86): collect "meters", "subscriptions", "prepaid" in
that fixed order, join with "+", with a "meters" fallback when the list
is empty (unreachable after the missing-keys check). -/
def autoBillingMethod (has_meters has_subscription has_prepaid : Bool) : String :=
  let methods : List String :=
    (if has_meters then ["meters"] else []) ++
    (if has_subscription then ["subscriptions"] else []) ++
    (if has_prepaid then ["prepaid"] else [])
  if methods.length > 1 then joinPlus methods
  else if methods.length == 1 then methods.headD "meters"
  else "meters"

/-- `has_subscription = os.getenv("STRIPE_PRICE_ID") is not None` (line 60). -/
def has_subscription (env : StripeEnv) : Bool := env.price_id.isSome

/-- `has_meters = os.getenv("STRIPE_METER_EVENT_NAME") is not None` (line 61). -/
def has_meters (env : StripeEnv) : Bool := env.meter_event_name.isSome

/-- `has_prepaid = os.getenv("STRIPE_USE_PREPAID_BALANCE", "false").lower() == "true"` (line 62). -/
def has_prepaid (env : StripeEnv) : Bool :=
  lowerStr (env.use_prepaid_balance.getD "false") == "true"

/-- Embeds `StripeLogger.validate_environment` (stripe.py lines 40-91):
collects missing mandatory keys (API key; at least one billing method) and
raises them together; otherwise computes the billing-method string —
`STRIPE_BILLING_METHOD` is lower-cased, `"auto"` (the default) triggers
auto-detection, anything else is taken as-is — and the prepaid flag. -/
def validate_environment (env : StripeEnv) : Except (List String) BillingConfig :=
  let missing0 : List String :=
    if env.api_key.isNone then ["STRIPE_API_KEY"] else []
  let missing_keys := missing0 ++
    (if !(has_subscription env) && !(has_meters env) && !(has_prepaid env) then
      ["STRIPE_PRICE_ID, STRIPE_METER_EVENT_NAME, or STRIPE_USE_PREPAID_BALANCE"]
     else [])
  if missing_keys.length > 0 then
    .error missing_keys
  else
    let billing_method := lowerStr (env.billing_method.getD "auto")
    let bm :=
      if billing_method == "auto" then
        autoBillingMethod (has_meters env) (has_subscription env) (has_prepaid env)
      else billing_method
    .ok { billing_method := bm,
          use_prepaid := has_prepaid env || strContains bm "prepaid" }

/-! ## Prepaid ledger (stripe_balance_endpoints.py, stripe.py)

A row of LiteLLM_StripeBalanceTable. -/

structure BalanceRecord where
  id : Nat
  customer_type : String
  customer_id : String
  stripe_customer_id : String
  balance : ℚ
  total_topups : ℚ
  total_spent : ℚ
  low_balance_threshold : Option ℚ
deriving DecidableEq

/-- A row of LiteLLM_StripeTransactionTable (created_at and the opaque
metadata map abstracted away). -/
structure TransactionRecord where
  customer_type : String
  customer_id : String
  stripe_customer_id : String
  transaction_type : String
  amount : ℚ
  balance_before : ℚ
  balance_after : ℚ
  stripe_payment_intent_id : Option String
  stripe_checkout_session_id : Option String
  request_id : Option String
deriving DecidableEq

/-- The database state the ledger operations read and write: the balance
table (unique on (customer_type, customer_id)), the append-only
transaction table, and the id counter for newly created balance rows. -/
structure LedgerState where
  records : List BalanceRecord
  transactions : List TransactionRecord
  next_id : Nat
deriving DecidableEq

/-- `litellm_stripebalancetable.find_unique(where={"customer_type_customer_id": ...})`. -/
def findBalanceRecord (st : LedgerState) (ct cid : String) : Option BalanceRecord :=
  st.records.find? (fun r => r.customer_type == ct && r.customer_id == cid)

/-- `litellm_stripebalancetable.update(where={"id": rid}, data=...)`. -/
def updateBalanceRecord (st : LedgerState) (rid : Nat)
    (f : BalanceRecord → BalanceRecord) : LedgerState :=
  { st with records := st.records.map (fun r => if r.id == rid then f r else r) }

/-- `litellm_stripebalancetable.create(...)` with zero balance / topups / spent. -/
def createZeroBalanceRecord (st : LedgerState) (ct cid scid : String) :
    LedgerState × BalanceRecord :=
  let r : BalanceRecord :=
    { id := st.next_id, customer_type := ct, customer_id := cid,
      stripe_customer_id := scid, balance := 0, total_topups := 0,
      total_spent := 0, low_balance_threshold := none }
  ({ st with records := st.records ++ [r], next_id := st.next_id + 1 }, r)

/-- Embeds `get_or_create_balance_record`
(stripe_balance_endpoints.py lines 60-90): return the existing row, or
create one with zero balance. -/
def get_or_create_balance_record (st : LedgerState) (ct cid scid : String) :
    LedgerState × BalanceRecord :=
  match findBalanceRecord st ct cid with
  | some existing => (st, existing)
  | none => createZeroBalanceRecord st ct cid scid

/-- Embeds `StripeLogger._async_deduct_from_balance`
(stripe.py lines 292-365): fetch (or create with zero balance) the
balance row, clamp the new balance at 0, update balance and total_spent,
and append a deduction TransactionRecord whose amount is the negated
actual deduction. -/
def async_deduct_from_balance (st : LedgerState) (ct cid scid : String)
    (cost : ℚ) (request_id : String) : LedgerState :=
  let found :=
    match findBalanceRecord st ct cid with
    | some r => (st, r)
    | none => createZeroBalanceRecord st ct cid scid
  let st1 := found.1
  let balance_record := found.2
  let old_balance := balance_record.balance
  let new_balance := max 0 (old_balance - cost)
  let actual_deduction := old_balance - new_balance
  let st2 := updateBalanceRecord st1 balance_record.id (fun r =>
    { r with balance := new_balance,
             total_spent := balance_record.total_spent + actual_deduction })
  let txn : TransactionRecord :=
    { customer_type := ct, customer_id := cid, stripe_customer_id := scid,
      transaction_type := "deduction", amount := -actual_deduction,
      balance_before := old_balance, balance_after := new_balance,
      stripe_payment_intent_id := none, stripe_checkout_session_id := none,
      request_id := some request_id }
  { st2 with transactions := st2.transactions ++ [txn] }

/-- The metadata of a checkout session as read by the webhook handler
(stripe_balance_endpoints.py lines 443-447). `topup_amount` models
`float(metadata.get("topup_amount", 0))`: the already-parsed number, 0
when the key is absent. -/
structure CheckoutSessionMeta where
  customer_type : Option String
  customer_id : Option String
  stripe_customer_id : Option String
  topup_amount : ℚ
deriving DecidableEq

structure CheckoutSession where
  id : Option String
  payment_intent : Option String
  metadata : CheckoutSessionMeta
deriving DecidableEq

/-- The JSON acknowledgment returned by the webhook endpoint. -/
structure WebhookResponse where
  status : String
  message : Option String
deriving DecidableEq

/-- The `if not all([customer_type, customer_id, stripe_customer_id,
topup_amount])` guard (stripe_balance_endpoints.py line 449): Python
truthiness, so `None`/`""` strings and a zero amount are rejected —
but any non-zero amount, including a negative one, is accepted. -/
def webhookMetaAccepted (m : CheckoutSessionMeta) : Bool :=
  pyTruthyStr m.customer_type && pyTruthyStr m.customer_id &&
  pyTruthyStr m.stripe_customer_id && !(m.topup_amount == 0)

/-- Embeds the event-dispatch core of `stripe_webhook`
(stripe_balance_endpoints.py lines 435-499): on
`checkout.session.completed`, reject (acknowledging with an error
payload, no state change) when metadata is incomplete or when no balance
row exists for the identity — this path never creates a row — otherwise
credit the balance, bump total_topups and append a topup
TransactionRecord carrying the checkout-session id. Any other event type
is acknowledged unchanged. There is no duplicate-delivery check: the
handler never consults existing transactions. -/
def stripe_webhook (st : LedgerState) (event_type : String)
    (session : CheckoutSession) : LedgerState × WebhookResponse :=
  if event_type == "checkout.session.completed" then
    let m := session.metadata
    if !(webhookMetaAccepted m) then
      (st, { status := "error", message := some "Missing metadata" })
    else
      match m.customer_type, m.customer_id, m.stripe_customer_id with
      | some ct, some cid, some scid =>
        match findBalanceRecord st ct cid with
        | none =>
          (st, { status := "error", message := some "Balance record not found" })
        | some balance_record =>
          let old_balance := balance_record.balance
          let new_balance := old_balance + m.topup_amount
          let st1 := updateBalanceRecord st balance_record.id (fun r =>
            { r with balance := new_balance,
                     total_topups := balance_record.total_topups + m.topup_amount })
          let txn : TransactionRecord :=
            { customer_type := ct, customer_id := cid,
              stripe_customer_id := scid, transaction_type := "topup",
              amount := m.topup_amount, balance_before := old_balance,
              balance_after := new_balance,
              stripe_payment_intent_id := session.payment_intent,
              stripe_checkout_session_id := session.id, request_id := none }
          ({ st1 with transactions := st1.transactions ++ [txn] },
           { status := "success", message := none })
      | _, _, _ =>
        (st, { status := "error", message := some "Missing metadata" })
  else
    (st, { status := "success", message := none })

/-! ## Reconciliation dispatch (stripe.py lines 367-554) -/

/-- The three billing strategies. -/
inductive Strategy
  | prepaid
  | meters
  | subscriptions
deriving DecidableEq

/-- An exception escaping the dispatcher to its caller. -/
inductive DispatchError
  | meter
  | subscription
deriving DecidableEq

/-- Everything a dispatch run reads: the logger configuration, the
request's attribution fields and usage, and the outcomes of the two
external HTTP posts (true = 2xx, false = the post raised). -/
structure DispatchEnv where
  use_prepaid : Bool
  billing_method : String
  charge_by : Option String
  ids : RequestIds
  response_cost : Option ℚ
  respUsage : Option ResponseUsage
  meter_event_name : Option String
  meter_post_ok : Bool
  sub_post_ok : Bool
  prisma_available : Bool
  loop_running : Bool
deriving DecidableEq

/-- The dispatcher's observable behaviour: which strategy legs were
entered, in order; which failure (if any) propagated to the caller; and
whether the prepaid ledger deduction was actually applied. -/
structure DispatchResult where
  legs : List Strategy
  propagated : Option DispatchError
  deduction_applied : Bool
deriving DecidableEq

def exceptOk {ε α : Type} : Except ε α → Bool
  | .ok _ => true
  | .error _ => false

/-- Embeds `StripeLogger.log_success_event` (stripe.py lines 367-441) at
the strategy-call level. Prepaid leg: `_deduct_from_prepaid_balance`
(lines 222-290) swallows every failure and applies the deduction only
when the DB client is available, the cost is a positive number, the
customer resolves to a truthy id, and no asyncio event loop is already
running (in which case it defers to the async path). Meter leg: build
the meter event and post it; on any failure re-raise only when the
billing method is exactly "meters", otherwise log and continue.
Subscription leg: build the usage record and post it; any failure is
re-raised. -/
def log_success_event (env : DispatchEnv) : DispatchResult :=
  let prepaid_part : List Strategy × Bool :=
    if env.use_prepaid then
      let cost_ok :=
        match env.response_cost with
        | none => false
        | some c => !(decide (c ≤ 0))
      let applied :=
        env.prisma_available && cost_ok &&
        (resolveCustomerPrepaid env.charge_by env.ids).isSome &&
        !env.loop_running
      ([Strategy.prepaid], applied)
    else ([], false)
  let legs0 := prepaid_part.1
  let ded := prepaid_part.2
  let meter_part : List Strategy × Option DispatchError :=
    if strContains env.billing_method "meters" then
      let ok :=
        exceptOk (send_meter_event env.charge_by env.ids env.respUsage
          env.meter_event_name) && env.meter_post_ok
      if ok then (legs0 ++ [Strategy.meters], none)
      else if env.billing_method == "meters" then
        (legs0 ++ [Strategy.meters], some DispatchError.meter)
      else (legs0 ++ [Strategy.meters], none)
    else (legs0, none)
  match meter_part.2 with
  | some e => { legs := meter_part.1, propagated := some e, deduction_applied := ded }
  | none =>
    if strContains env.billing_method "subscriptions" then
      let ok :=
        exceptOk (common_logic env.charge_by env.ids env.respUsage) && env.sub_post_ok
      if ok then
        { legs := meter_part.1 ++ [Strategy.subscriptions], propagated := none,
          deduction_applied := ded }
      else
        { legs := meter_part.1 ++ [Strategy.subscriptions],
          propagated := some DispatchError.subscription, deduction_applied := ded }
    else { legs := meter_part.1, propagated := none, deduction_applied := ded }

/-- Embeds `StripeLogger.async_log_success_event` (stripe.py
lines 442-554) at the strategy-call level. Prepaid leg: inline code
(lines 446-488) swallowing every failure, applying the deduction when
the DB client is available, the cost is truthy and positive
(`if cost and cost > 0`), and the customer resolves to a truthy id —
there is no event-loop guard here. Meter and subscription legs are
verbatim copies of the sync ones with an awaited post. -/
def async_log_success_event (env : DispatchEnv) : DispatchResult :=
  let prepaid_part : List Strategy × Bool :=
    if env.use_prepaid then
      let cost_ok :=
        match env.response_cost with
        | none => false
        | some c => !(c == 0) && decide (0 < c)
      let applied :=
        env.prisma_available && cost_ok &&
        (resolveCustomerPrepaid env.charge_by env.ids).isSome
      ([Strategy.prepaid], applied)
    else ([], false)
  let legs0 := prepaid_part.1
  let ded := prepaid_part.2
  let meter_part : List Strategy × Option DispatchError :=
    if strContains env.billing_method "meters" then
      let ok :=
        exceptOk (send_meter_event env.charge_by env.ids env.respUsage
          env.meter_event_name) && env.meter_post_ok
      if ok then (legs0 ++ [Strategy.meters], none)
      else if env.billing_method == "meters" then
        (legs0 ++ [Strategy.meters], some DispatchError.meter)
      else (legs0 ++ [Strategy.meters], none)
    else (legs0, none)
  match meter_part.2 with
  | some e => { legs := meter_part.1, propagated := some e, deduction_applied := ded }
  | none =>
    if strContains env.billing_method "subscriptions" then
      let ok :=
        exceptOk (common_logic env.charge_by env.ids env.respUsage) && env.sub_post_ok
      if ok then
        { legs := meter_part.1 ++ [Strategy.subscriptions], propagated := none,
          deduction_applied := ded }
      else
        { legs := meter_part.1 ++ [Strategy.subscriptions],
          propagated := some DispatchError.subscription, deduction_applied := ded }
    else { legs := meter_part.1, propagated := none, deduction_applied := ded }

/-! ## Helper lemmas -/

/-- Updating the row with a given id commutes with looking a row up by
(customer_type, customer_id), when the update leaves those two key
fields unchanged. -/
lemma find_map_update (l : List BalanceRecord) (i : Nat) (f : BalanceRecord → BalanceRecord)
    (hf : ∀ r, (f r).customer_type = r.customer_type ∧ (f r).customer_id = r.customer_id)
    (ct cid : String) :
    (l.map (fun r => if r.id == i then f r else r)).find?
        (fun r => r.customer_type == ct && r.customer_id == cid)
      = (l.find? (fun r => r.customer_type == ct && r.customer_id == cid)).map
          (fun r => if r.id == i then f r else r) := by
  induction l with
  | nil => rfl
  | cons a l ih =>
    have hkey : ((if (a.id == i) = true then f a else a).customer_type == ct &&
        (if (a.id == i) = true then f a else a).customer_id == cid)
        = (a.customer_type == ct && a.customer_id == cid) := by
      by_cases hid : (a.id == i) = true
      · rw [if_pos hid, (hf a).1, (hf a).2]
      · rw [if_neg hid]
    simp only [List.map_cons, List.find?_cons]
    rw [hkey]
    cases h : (a.customer_type == ct && a.customer_id == cid) with
    | true => simp
    | false => exact ih

/-! ## Claim theorems -/

/-- C1: for a prepaid debit of amount d against an existing BalanceRecord
with balance b: when d > b the new balance is 0, total_spent grows by
exactly b and the appended deduction TransactionRecord has amount -b,
balance_before b, balance_after 0; when d ≤ b the balance drops by
exactly d and the record has amount -d. -/
theorem claim_C1_debit_clamp (st : LedgerState) (ct cid scid rid : String) (d : ℚ)
    (rec : BalanceRecord)
    (hfind : findBalanceRecord st ct cid = some rec) (hd : 0 < d) :
    let st' := async_deduct_from_balance st ct cid scid d rid
    (rec.balance < d →
      findBalanceRecord st' ct cid =
        some { rec with balance := 0, total_spent := rec.total_spent + rec.balance } ∧
      st'.transactions = st.transactions ++
        [⟨ct, cid, scid, "deduction", -rec.balance, rec.balance, 0, none, none, some rid⟩]) ∧
    (d ≤ rec.balance →
      findBalanceRecord st' ct cid =
        some { rec with balance := rec.balance - d, total_spent := rec.total_spent + d } ∧
      st'.transactions = st.transactions ++
        [⟨ct, cid, scid, "deduction", -d, rec.balance, rec.balance - d, none, none, some rid⟩]) := by
  intro st'
  have hfind' : findBalanceRecord st' ct cid =
      some { rec with balance := max 0 (rec.balance - d), total_spent := rec.total_spent + (rec.balance - max 0 (rec.balance - d)) } := by
    show findBalanceRecord (async_deduct_from_balance st ct cid scid d rid) ct cid = _
    simp only [async_deduct_from_balance, hfind]
    simp only [findBalanceRecord, updateBalanceRecord]
    rw [find_map_update st.records rec.id
      (fun r => { r with balance := max 0 (rec.balance - d), total_spent := rec.total_spent + (rec.balance - max 0 (rec.balance - d)) })
      (fun r => ⟨rfl, rfl⟩) ct cid]
    simp only [findBalanceRecord] at hfind
    rw [hfind]
    simp
  have htxn : st'.transactions = st.transactions ++
      [⟨ct, cid, scid, "deduction", -(rec.balance - max 0 (rec.balance - d)), rec.balance, max 0 (rec.balance - d), none, none, some rid⟩] := by
    show (async_deduct_from_balance st ct cid scid d rid).transactions = _
    simp only [async_deduct_from_balance, hfind, updateBalanceRecord]
  constructor
  · intro hlt
    have hmax : max 0 (rec.balance - d) = 0 := max_eq_left (by linarith)
    rw [hmax] at hfind' htxn
    simp only [sub_zero] at hfind' htxn
    exact ⟨hfind', htxn⟩
  · intro hle
    have hmax : max 0 (rec.balance - d) = rec.balance - d :=
      max_eq_right (by linarith)
    rw [hmax] at hfind' htxn
    rw [sub_sub_cancel] at hfind' htxn
    exact ⟨hfind', htxn⟩

/-- A one-row ledger for the C1 witness: the spec scenario balance=5, cost=7. -/
def stC1 : LedgerState :=
  ⟨[⟨1, "end_user_id", "cust1", "end_user_id_cust1", 5, 5, 0, none⟩], [], 2⟩

def recC1 : BalanceRecord := ⟨1, "end_user_id", "cust1", "end_user_id_cust1", 5, 5, 0, none⟩

/-- Witness for C1 at balance 5, debit 7 (the spec's own clamp scenario). -/
theorem claim_C1_debit_clamp_witness :
    findBalanceRecord stC1 "end_user_id" "cust1" = some recC1 ∧ (0:ℚ) < 7 ∧
    (let st' := async_deduct_from_balance stC1 "end_user_id" "cust1" "end_user_id_cust1" 7 "req1"
     (recC1.balance < 7 →
       findBalanceRecord st' "end_user_id" "cust1" =
         some { recC1 with balance := 0, total_spent := recC1.total_spent + recC1.balance } ∧
       st'.transactions = stC1.transactions ++
         [⟨"end_user_id", "cust1", "end_user_id_cust1", "deduction", -recC1.balance, recC1.balance, 0, none, none, some "req1"⟩]) ∧
     (7 ≤ recC1.balance →
       findBalanceRecord st' "end_user_id" "cust1" =
         some { recC1 with balance := recC1.balance - 7, total_spent := recC1.total_spent + 7 } ∧
       st'.transactions = stC1.transactions ++
         [⟨"end_user_id", "cust1", "end_user_id_cust1", "deduction", -7, recC1.balance, recC1.balance - 7, none, none, some "req1"⟩])) :=
  ⟨by decide, by norm_num,
   claim_C1_debit_clamp stC1 "end_user_id" "cust1" "end_user_id_cust1" "req1" 7 recC1
     (by decide) (by norm_num)⟩

/-- One existing zero-balance row for user "alice", and a completed
checkout session crediting $10, as delivered (twice) by the provider. -/
def stC2 : LedgerState :=
  ⟨[⟨1, "user_id", "alice", "user_id_alice", 0, 0, 0, none⟩], [], 2⟩

def sessC2 : CheckoutSession :=
  ⟨some "cs_test_1", some "pi_1",
   ⟨some "user_id", some "alice", some "user_id_alice", 10⟩⟩

/-- C2 (refuting evaluation): the webhook handler has no duplicate-delivery
check, so delivering the same checkout.session.completed event (same
checkout-session id "cs_test_1") twice credits the balance twice (0 → 10
→ 20) and appends two topup TransactionRecords carrying the same
checkout-session id, where the claim requires exactly one. -/
theorem claim_C2_webhook_double_credit :
    (stripe_webhook stC2 "checkout.session.completed" sessC2).2.status = "success" ∧
    (stripe_webhook (stripe_webhook stC2 "checkout.session.completed" sessC2).1
      "checkout.session.completed" sessC2).2.status = "success" ∧
    findBalanceRecord
      (stripe_webhook (stripe_webhook stC2 "checkout.session.completed" sessC2).1
        "checkout.session.completed" sessC2).1 "user_id" "alice" =
      some ⟨1, "user_id", "alice", "user_id_alice", 20, 20, 0, none⟩ ∧
    (stripe_webhook (stripe_webhook stC2 "checkout.session.completed" sessC2).1
      "checkout.session.completed" sessC2).1.transactions =
      [⟨"user_id", "alice", "user_id_alice", "topup", 10, 0, 10, some "pi_1", some "cs_test_1", none⟩,
       ⟨"user_id", "alice", "user_id_alice", "topup", 10, 10, 20, some "pi_1", some "cs_test_1", none⟩] := by
  simp +decide [stripe_webhook, webhookMetaAccepted, pyTruthyStr, findBalanceRecord,
    updateBalanceRecord, stC2, sessC2]
  norm_num

/-- A zero-balance row for user "bob" and a webhook event whose metadata
carries topup_amount = -5: non-zero, hence truthy, hence accepted by the
handler's `all([...])` guard. -/
def stC8 : LedgerState :=
  ⟨[⟨1, "user_id", "bob", "user_id_bob", 0, 0, 0, none⟩], [], 2⟩

def sessC8 : CheckoutSession :=
  ⟨some "cs_test_2", some "pi_2",
   ⟨some "user_id", some "bob", some "user_id_bob", -5⟩⟩

/-- C8 (refuting evaluation): the webhook handler accepts a negative
topup amount (only 0 is falsy) and applies it unguarded, driving the
balance of an existing zero-balance record to -5 < 0 — the balance ≥ 0
invariant is not preserved for all accepted webhook amounts. -/
theorem claim_C8_negative_topup_breaks_invariant :
    webhookMetaAccepted sessC8.metadata = true ∧
    (let p := stripe_webhook stC8 "checkout.session.completed" sessC8
     p.2.status = "success" ∧
     findBalanceRecord p.1 "user_id" "bob" =
       some ⟨1, "user_id", "bob", "user_id_bob", -5, -5, 0, none⟩) ∧
    (-5 : ℚ) < 0 := by
  refine ⟨by decide, ?_, by norm_num⟩
  simp +decide [stripe_webhook, webhookMetaAccepted, pyTruthyStr, findBalanceRecord,
    updateBalanceRecord, stC8, sessC8]

/-- C10: a checkout.session.completed event with complete metadata but no
existing BalanceRecord for its (customer_type, customer_id) identity
changes nothing (the state is returned untouched — no record created, no
credit, no transaction) and is acknowledged with an error payload;
by contrast the balance-query path (get_or_create_balance_record) and
the debit path (async_deduct_from_balance) both create the missing row. -/
theorem claim_C10_webhook_no_lazy_create (st : LedgerState) (sess : CheckoutSession)
    (ct cid scid : String)
    (hct : sess.metadata.customer_type = some ct)
    (hcid : sess.metadata.customer_id = some cid)
    (hscid : sess.metadata.stripe_customer_id = some scid)
    (hacc : webhookMetaAccepted sess.metadata = true)
    (hfind : findBalanceRecord st ct cid = none) :
    stripe_webhook st "checkout.session.completed" sess =
      (st, ⟨"error", some "Balance record not found"⟩) ∧
    (∀ scid2, (get_or_create_balance_record st ct cid scid2).1.records.length
      = st.records.length + 1) ∧
    (∀ scid2 cost rid,
      (findBalanceRecord (async_deduct_from_balance st ct cid scid2 cost rid) ct cid).isSome
        = true) := by
  refine ⟨?_, ?_, ?_⟩
  · simp only [stripe_webhook, hacc, hct, hcid, hscid, hfind]
    simp
  · intro scid2
    simp [get_or_create_balance_record, createZeroBalanceRecord, hfind]
  · intro scid2 cost rid
    simp only [async_deduct_from_balance, hfind, createZeroBalanceRecord]
    simp only [findBalanceRecord, updateBalanceRecord]
    rw [find_map_update]
    · rw [List.find?_append]
      simp only [findBalanceRecord] at hfind
      rw [hfind]
      simp
    · exact fun r => ⟨rfl, rfl⟩

/-- An empty ledger and a fully populated session, witnessing C10's
hypotheses (complete metadata, no existing record). -/
def stC10 : LedgerState := ⟨[], [], 1⟩

def sessC10 : CheckoutSession :=
  ⟨some "cs_test_3", some "pi_3",
   ⟨some "team_id", some "teamA", some "team_id_teamA", 25⟩⟩

/-- Witness for C10 at a concrete empty ledger. -/
theorem claim_C10_webhook_no_lazy_create_witness :
    sessC10.metadata.customer_type = some "team_id" ∧
    sessC10.metadata.customer_id = some "teamA" ∧
    sessC10.metadata.stripe_customer_id = some "team_id_teamA" ∧
    webhookMetaAccepted sessC10.metadata = true ∧
    findBalanceRecord stC10 "team_id" "teamA" = none ∧
    (stripe_webhook stC10 "checkout.session.completed" sessC10 =
      (stC10, ⟨"error", some "Balance record not found"⟩) ∧
    (∀ scid2, (get_or_create_balance_record stC10 "team_id" "teamA" scid2).1.records.length
      = stC10.records.length + 1) ∧
    (∀ scid2 cost rid,
      (findBalanceRecord (async_deduct_from_balance stC10 "team_id" "teamA" scid2 cost rid)
        "team_id" "teamA").isSome = true)) :=
  ⟨rfl, rfl, rfl, by decide, rfl,
   claim_C10_webhook_no_lazy_create stC10 sessC10 "team_id" "teamA" "team_id_teamA"
     rfl rfl rfl (by decide) rfl⟩

/-- A dispatch input for C3: charge_by=team_id with the team id absent
from metadata, meters+subscriptions both active, both HTTP posts would
succeed, no prepaid. -/
def envC3 : DispatchEnv :=
  ⟨false, "meters+subscriptions", some "team_id", ⟨some "eu", some "u", none⟩, none,
   some ⟨some 10, some 10, some 20⟩, some "tokens", true, true, true, false⟩

/-- C3 counterexample: with policy team_id, team id missing, and
meters+subscriptions active, an exception DOES escape to the caller —
the subscription leg catches the missing-customer exception from
`_common_logic` and re-raises it (stripe.py lines 436-440 / 551-554),
in both dispatch modes. The claim's "no exception escapes" is false. -/
theorem claim_C3_counterexample :
    (log_success_event envC3).propagated = some DispatchError.subscription ∧
    (async_log_success_event envC3).propagated = some DispatchError.subscription := by
  decide

/-- C3 (amended): with policy team_id, the team id missing and
meters+subscriptions both active, the meter leg is entered and its
missing-customer failure is only logged (not propagated, since meters is
not the sole strategy) — but the subscription leg is also entered, fails
for the same missing customer, and that failure propagates to the
caller, in both dispatch modes. -/
theorem claim_C3_missing_team_subscription_raises (env : DispatchEnv)
    (hcb : env.charge_by = some "team_id")
    (hteam : env.ids.team_id = none)
    (hbm : env.billing_method = "meters+subscriptions") :
    (log_success_event env).propagated = some DispatchError.subscription ∧
    Strategy.meters ∈ (log_success_event env).legs ∧
    Strategy.subscriptions ∈ (log_success_event env).legs ∧
    (async_log_success_event env).propagated = some DispatchError.subscription ∧
    Strategy.meters ∈ (async_log_success_event env).legs ∧
    Strategy.subscriptions ∈ (async_log_success_event env).legs := by
  have hmeter : send_meter_event env.charge_by env.ids env.respUsage env.meter_event_name
      = Except.error ResolveError.missingCustomer := by
    simp [send_meter_event, resolveCustomerMeter, hcb, validChargeBy, pickCustomerId, hteam]
  have hcommon : common_logic env.charge_by env.ids env.respUsage
      = Except.error ResolveError.missingCustomer := by
    simp [common_logic, resolveCustomerCommon, hcb, validChargeBy, pickCustomerId, hteam]
  cases hP : env.use_prepaid <;>
  simp +decide [log_success_event, async_log_success_event, hP, hbm, hmeter, hcommon, exceptOk]

/-- Witness for the amended C3 at the concrete input of the counterexample. -/
theorem claim_C3_missing_team_subscription_raises_witness :
    envC3.charge_by = some "team_id" ∧ envC3.ids.team_id = none ∧
    envC3.billing_method = "meters+subscriptions" ∧
    ((log_success_event envC3).propagated = some DispatchError.subscription ∧
     Strategy.meters ∈ (log_success_event envC3).legs ∧
     Strategy.subscriptions ∈ (log_success_event envC3).legs ∧
     (async_log_success_event envC3).propagated = some DispatchError.subscription ∧
     Strategy.meters ∈ (async_log_success_event envC3).legs ∧
     Strategy.subscriptions ∈ (async_log_success_event envC3).legs) :=
  ⟨rfl, rfl, rfl,
   claim_C3_missing_team_subscription_raises envC3 rfl rfl rfl⟩

/-- C4 counterexample: a response whose usage reports total_tokens = 0
yields an emitted quantity of 0, not 1: `usage.get("total_tokens", 1)`
only falls back to 1 when the key is absent (empty usage dict), and the
usage dict built from a present usage object always carries the key.
Both the subscription quantity and the meter value emit 0. -/
theorem claim_C4_counterexample :
    commonLogicQuantity (some ⟨some 0, some 0, some 0⟩) = 0 ∧
    meterEventValue (some ⟨some 0, some 0, some 0⟩) = 0 ∧
    common_logic none ⟨some "eu", none, none⟩ (some ⟨some 0, some 0, some 0⟩) =
      Except.ok ⟨0, "increment", "eu", "end_user_id"⟩ ∧
    send_meter_event none ⟨some "eu", none, none⟩ (some ⟨some 0, some 0, some 0⟩)
      (some "tokens") = Except.ok ⟨"tokens", "eu", "0"⟩ := by decide

/-- C4 (amended): the unit floor of 1 applies exactly when usage data is
unavailable on the response; when usage is present the emitted
quantity/value equals the reported total_tokens (0 defaulted per key),
including 0. -/
theorem claim_C4_unit_floor_only_when_usage_absent (u : ResponseUsage) :
    commonLogicQuantity none = 1 ∧ meterEventValue none = 1 ∧
    commonLogicQuantity (some u) = u.total_tokens.getD 0 ∧
    meterEventValue (some u) = u.total_tokens.getD 0 :=
  ⟨rfl, rfl, rfl, rfl⟩

/-- C5: when the meter-event leg fails, the failure propagates iff meters
is the only active (auto-detected) strategy; combined with subscriptions
and/or prepaid, the failure is not propagated as a meter error and the
subscription leg (when active) still executes — in both dispatch modes. -/
theorem claim_C5_meter_failure_isolation (env : DispatchEnv) (hs hp : Bool)
    (hbm : env.billing_method = autoBillingMethod true hs hp)
    (hfail : (exceptOk (send_meter_event env.charge_by env.ids env.respUsage
      env.meter_event_name) && env.meter_post_ok) = false) :
    ((hs = false ∧ hp = false) →
      (log_success_event env).propagated = some DispatchError.meter ∧
      (async_log_success_event env).propagated = some DispatchError.meter) ∧
    ((hs = true ∨ hp = true) →
      (log_success_event env).propagated ≠ some DispatchError.meter ∧
      (async_log_success_event env).propagated ≠ some DispatchError.meter ∧
      (hs = true → Strategy.subscriptions ∈ (log_success_event env).legs ∧
        Strategy.subscriptions ∈ (async_log_success_event env).legs)) := by
  cases hs <;> cases hp <;>
    simp only [autoBillingMethod, joinPlus] at hbm <;>
    simp only [List.append_nil, List.nil_append, List.append_assoc] at hbm <;>
    cases hP : env.use_prepaid <;>
    cases hB : exceptOk (common_logic env.charge_by env.ids env.respUsage) && env.sub_post_ok <;>
    simp +decide [log_success_event, async_log_success_event, hP, hbm, hfail, hB]

/-- A dispatch input for the C5 witness: meters+subscriptions
auto-detected, meter post fails, subscription post would succeed. -/
def envC5 : DispatchEnv :=
  ⟨false, "meters+subscriptions", none, ⟨some "eu", none, none⟩, none,
   some ⟨some 10, some 10, some 20⟩, some "tokens", false, true, true, false⟩

/-- Witness for C5: meters combined with subscriptions, meter post failing. -/
theorem claim_C5_meter_failure_isolation_witness :
    envC5.billing_method = autoBillingMethod true true false ∧
    (exceptOk (send_meter_event envC5.charge_by envC5.ids envC5.respUsage
      envC5.meter_event_name) && envC5.meter_post_ok) = false ∧
    (((true = false ∧ false = false) →
      (log_success_event envC5).propagated = some DispatchError.meter ∧
      (async_log_success_event envC5).propagated = some DispatchError.meter) ∧
    ((true = true ∨ false = true) →
      (log_success_event envC5).propagated ≠ some DispatchError.meter ∧
      (async_log_success_event envC5).propagated ≠ some DispatchError.meter ∧
      (true = true → Strategy.subscriptions ∈ (log_success_event envC5).legs ∧
        Strategy.subscriptions ∈ (async_log_success_event envC5).legs))) :=
  ⟨by decide, by decide,
   claim_C5_meter_failure_isolation envC5 true false (by decide) (by decide)⟩

/-- C6 counterexample: with an invalid charge_by policy, the meter path
and the prepaid path do NOT fail with a configuration error — they
silently fall back to the default end_user_id and resolve successfully
(stripe.py lines 191-193, 247-249: the invalid value is ignored). Only
the subscription path (`_common_logic`) raises. -/
theorem claim_C6_counterexample :
    validChargeBy "not_a_policy" = false ∧
    resolveCustomerMeter (some "not_a_policy") ⟨some "eu", some "u", some "t"⟩ =
      Except.ok ("end_user_id", "eu") ∧
    resolveCustomerPrepaid (some "not_a_policy") ⟨some "eu", some "u", some "t"⟩ =
      some ("end_user_id", "eu") := by decide

/-- C6 (amended): an invalid charge_by policy raises a configuration
error only in the subscription-path resolver (`_common_logic`); the
meter and prepaid resolvers silently ignore it and behave exactly as if
the policy were unconfigured; and the unconfigured default is
end_user_id in the subscription path. -/
theorem claim_C6_invalid_policy_only_common_raises (cb : String) (ids : RequestIds)
    (hcb : validChargeBy cb = false) :
    resolveCustomerCommon (some cb) ids = Except.error ResolveError.configError ∧
    resolveCustomerMeter (some cb) ids = resolveCustomerMeter none ids ∧
    resolveCustomerPrepaid (some cb) ids = resolveCustomerPrepaid none ids ∧
    (resolveCustomerCommon none ids =
      match ids.end_user_id with
      | some c => Except.ok ("end_user_id", c)
      | none => Except.error ResolveError.missingCustomer) := by
  refine ⟨?_, ?_, ?_, ?_⟩ <;>
    simp [resolveCustomerCommon, resolveCustomerMeter, resolveCustomerPrepaid,
      hcb, pickCustomerId]

/-- Witness for the amended C6 at the invalid policy "not_a_policy". -/
theorem claim_C6_invalid_policy_only_common_raises_witness :
    validChargeBy "not_a_policy" = false ∧
    (resolveCustomerCommon (some "not_a_policy") ⟨some "eu", some "u", some "t"⟩ =
        Except.error ResolveError.configError ∧
      resolveCustomerMeter (some "not_a_policy") ⟨some "eu", some "u", some "t"⟩ =
        resolveCustomerMeter none ⟨some "eu", some "u", some "t"⟩ ∧
      resolveCustomerPrepaid (some "not_a_policy") ⟨some "eu", some "u", some "t"⟩ =
        resolveCustomerPrepaid none ⟨some "eu", some "u", some "t"⟩ ∧
      (resolveCustomerCommon none ⟨some "eu", some "u", some "t"⟩ =
        match (⟨some "eu", some "u", some "t"⟩ : RequestIds).end_user_id with
        | some c => Except.ok ("end_user_id", c)
        | none => Except.error ResolveError.missingCustomer)) :=
  ⟨by decide,
   claim_C6_invalid_policy_only_common_raises "not_a_policy"
     ⟨some "eu", some "u", some "t"⟩ (by decide)⟩

/-- C7 counterexample: an explicit billing-method override is NOT taken
verbatim — it is lower-cased first: `STRIPE_BILLING_METHOD="Meters"`
yields the stored billing method "meters", not "Meters"
(stripe.py line 71: `os.getenv("STRIPE_BILLING_METHOD", "auto").lower()`). -/
theorem claim_C7_counterexample :
    validate_environment ⟨some "sk", some "price_123", none, none, some "Meters"⟩ =
      Except.ok ⟨"meters", false⟩ ∧
    ("meters" : String) ≠ "Meters" := by decide

/-- C7 (amended): without an explicit override the active strategy set is
auto-detected in the fixed order meters, subscriptions, prepaid (joined
with "+"); if none of the three is configured, validation fails listing
all three alternatives in one message; an explicit override string is
lower-cased and then taken as-is, bypassing auto-detection. -/
theorem claim_C7_method_selection (env : StripeEnv) (k : String)
    (hk : env.api_key = some k) :
    ((env.billing_method = none ∧
        (has_meters env || has_subscription env || has_prepaid env) = true) →
      validate_environment env =
        Except.ok ⟨autoBillingMethod (has_meters env) (has_subscription env) (has_prepaid env),
          has_prepaid env || strContains
            (autoBillingMethod (has_meters env) (has_subscription env) (has_prepaid env))
            "prepaid"⟩) ∧
    ((env.billing_method = none ∧
        (has_meters env || has_subscription env || has_prepaid env) = false) →
      validate_environment env =
        Except.error ["STRIPE_PRICE_ID, STRIPE_METER_EVENT_NAME, or STRIPE_USE_PREPAID_BALANCE"]) ∧
    (∀ o, env.billing_method = some o → (lowerStr o == "auto") = false →
      (has_meters env || has_subscription env || has_prepaid env) = true →
      validate_environment env =
        Except.ok ⟨lowerStr o, has_prepaid env || strContains (lowerStr o) "prepaid"⟩) ∧
    (autoBillingMethod true true true = "meters+subscriptions+prepaid" ∧
     autoBillingMethod true true false = "meters+subscriptions" ∧
     autoBillingMethod true false true = "meters+prepaid" ∧
     autoBillingMethod false true true = "subscriptions+prepaid" ∧
     autoBillingMethod true false false = "meters" ∧
     autoBillingMethod false true false = "subscriptions" ∧
     autoBillingMethod false false true = "prepaid") := by
  refine ⟨?_, ?_, ?_, by decide⟩
  · rintro ⟨hbm, hflags⟩
    cases hm : has_meters env <;> cases hsub : has_subscription env <;>
      cases hp : has_prepaid env <;>
      simp [hm, hsub, hp] at hflags <;>
      simp [validate_environment, hk, hbm, hm, hsub, hp, lowerStr]
  · rintro ⟨hbm, hflags⟩
    cases hm : has_meters env <;> cases hsub : has_subscription env <;>
      cases hp : has_prepaid env <;>
      simp [hm, hsub, hp] at hflags <;>
      simp [validate_environment, hk, hbm, hm, hsub, hp, lowerStr]
  · intro o hbm hauto hflags
    cases hm : has_meters env <;> cases hsub : has_subscription env <;>
      cases hp : has_prepaid env <;>
      simp [hm, hsub, hp] at hflags <;>
      simp [validate_environment, hk, hbm, hm, hsub, hp, hauto]

/-- An environment for the C7 witness: meter name and price id set, no
prepaid, no override. -/
def envC7 : StripeEnv := ⟨some "sk", some "price_123", some "tokens", none, none⟩

/-- Witness for the amended C7 at a concrete environment. -/
theorem claim_C7_method_selection_witness :
    envC7.api_key = some "sk" ∧
    (((envC7.billing_method = none ∧
        (has_meters envC7 || has_subscription envC7 || has_prepaid envC7) = true) →
      validate_environment envC7 =
        Except.ok ⟨autoBillingMethod (has_meters envC7) (has_subscription envC7) (has_prepaid envC7),
          has_prepaid envC7 || strContains
            (autoBillingMethod (has_meters envC7) (has_subscription envC7) (has_prepaid envC7))
            "prepaid"⟩) ∧
    ((envC7.billing_method = none ∧
        (has_meters envC7 || has_subscription envC7 || has_prepaid envC7) = false) →
      validate_environment envC7 =
        Except.error ["STRIPE_PRICE_ID, STRIPE_METER_EVENT_NAME, or STRIPE_USE_PREPAID_BALANCE"]) ∧
    (∀ o, envC7.billing_method = some o → (lowerStr o == "auto") = false →
      (has_meters envC7 || has_subscription envC7 || has_prepaid envC7) = true →
      validate_environment envC7 =
        Except.ok ⟨lowerStr o, has_prepaid envC7 || strContains (lowerStr o) "prepaid"⟩) ∧
    (autoBillingMethod true true true = "meters+subscriptions+prepaid" ∧
     autoBillingMethod true true false = "meters+subscriptions" ∧
     autoBillingMethod true false true = "meters+prepaid" ∧
     autoBillingMethod false true true = "subscriptions+prepaid" ∧
     autoBillingMethod true false false = "meters" ∧
     autoBillingMethod false true false = "subscriptions" ∧
     autoBillingMethod false false true = "prepaid")) :=
  ⟨rfl, claim_C7_method_selection envC7 "sk" rfl⟩

/-- C9: the blocking (`log_success_event`) and non-blocking
(`async_log_success_event`) dispatch modes enter the same strategy legs
in the same order (prepaid, meters, subscriptions) and propagate the
same failure (meter failures only when meters is the sole strategy,
subscription failures always, prepaid failures never), for every input
and configuration. Only the internal prepaid bookkeeping (the sync
path's event-loop deferral) differs, which is invisible at this level. -/
theorem claim_C9_sync_async_dispatch_equivalent (env : DispatchEnv) :
    (log_success_event env).legs = (async_log_success_event env).legs ∧
    (log_success_event env).propagated = (async_log_success_event env).propagated := by
  cases hP : env.use_prepaid <;>
  cases hM : strContains env.billing_method "meters" <;>
  cases hO : exceptOk (send_meter_event env.charge_by env.ids env.respUsage
    env.meter_event_name) && env.meter_post_ok <;>
  cases hE : env.billing_method == "meters" <;>
  cases hS : strContains env.billing_method "subscriptions" <;>
  cases hB : exceptOk (common_logic env.charge_by env.ids env.respUsage) && env.sub_post_ok <;>
  simp [log_success_event, async_log_success_event, hP, hM, hO, hE, hS, hB]
